import Mathlib

/-!
Verification of the layered request-processing pipeline described by the
specification of this repository, against a shallow embedding of the
source files under src/ (NestJS example code: guards, pipes, interceptors,
exception filters).  Definitions carrying a source file reference are
translated from that file; definitions whose doc comment starts with
"Modelled from the spec:" embed pipeline behaviour that the repository
uses from its framework but does not itself implement under src/.
-/

namespace Pipeline

/-- Failure kinds of the pipeline taxonomy (spec section 7), together with
the HTTP-exception kinds that appear in the source files
(BadGatewayException in interceptos.interceptor.ts, BadRequestException in
pipes.pipe.ts, RequestTimeoutException, ForbiddenException). -/
inductive Kind where
  | Forbidden
  | Unauthorized
  | ValidationFailed
  | Timeout
  | HandlerError
  | InternalError
  | InvalidInterceptorUsage
  | BadGateway
  deriving DecidableEq, Repr

/-- Outcome of one pipeline invocation: Success(value) or
Failure(kind, message). -/
inductive Outcome (α : Type) where
  | success (v : α)
  | failure (k : Kind) (msg : String)
  deriving DecidableEq, Repr

/-- Shape of the JSON error body produced when a guard rejects a request
(src/src/common/guards/guards.guard.ts, errorResponse). -/
structure ErrorResponse where
  statusCode : Nat
  message : String
  error : String
  deriving DecidableEq, Repr

/-- The response the framework produces when a guard returns false
(src/src/common/guards/guards.guard.ts lines 237-241). -/
def errorResponse : ErrorResponse :=
  { statusCode := 403, message := "Forbidden resource", error := "Forbidden" }

/-- Shape of the default JSON body for unrecognized exceptions
(src/src/common/exception-filters/exception-filters.filter.ts, httpResponse). -/
structure HttpResponse where
  statusCode : Nat
  message : String
  deriving DecidableEq, Repr

/-- The default response for an exception that is not an HttpException
(src/src/common/exception-filters/exception-filters.filter.ts lines 35-38). -/
def httpResponse : HttpResponse :=
  { statusCode := 500, message := "Internal Server Error" }

/-- Result of evaluating one guard on one request: canActivate returned
true, returned false, or threw an exception of some kind with a message
(src/src/common/guards/guards.guard.ts lines 243-248 describe the three
cases). -/
inductive GuardResult where
  | gtrue
  | gfalse
  | gerror (k : Kind) (msg : String)
  deriving DecidableEq, Repr

/-- Modelled from the spec: the guard-chain driver is framework code not
present under src/.  Evaluate guards in declared order, short-circuit on
the first non-true result; a false result yields the normalized Forbidden
failure with the generic message of errorResponse, a thrown error
propagates with its own kind and message (spec section 4.2; source
comments in guards.guard.ts lines 243-248). -/
def runGuards : List GuardResult → Option (Kind × String)
  | [] => none
  | .gtrue :: gs => runGuards gs
  | .gfalse :: _ => some (.Forbidden, errorResponse.message)
  | .gerror k m :: _ => some (k, m)

/-- Modelled from the spec: number of guards of the list the chain driver
actually evaluates before returning (all guards up to and including the
first non-true one). -/
def guardsEvaluated : List GuardResult → Nat
  | [] => 0
  | .gtrue :: gs => 1 + guardsEvaluated gs
  | .gfalse :: _ => 1
  | .gerror _ _ :: _ => 1

/-- JavaScript values as far as the argument pipeline observes them:
undefined, null, strings, (integral) numbers and booleans. -/
inductive JsVal where
  | undef
  | null
  | str (s : String)
  | num (n : Int)
  | bool (b : Bool)
  deriving DecidableEq, Repr

/-- The JavaScript ToString conversion on the values of JsVal, as used by
parseInt when its argument is not already a string. -/
def jsToString : JsVal → String
  | .undef => "undefined"
  | .null => "null"
  | .str s => s
  | .num n => toString n
  | .bool b => cond b "true" "false"

/-- The decimal digits at the head of a character list. -/
def leadingDigits (cs : List Char) : List Char :=
  cs.takeWhile Char.isDigit

/-- Numeric value of a list of decimal digits. -/
def digitsToNat (ds : List Char) : Nat :=
  ds.foldl (fun a c => a * 10 + (c.toNat - 48)) 0

/-- JavaScript parseInt(s, 10) on a string: skip leading whitespace, read
an optional sign and then the longest prefix of decimal digits; the result
is NaN (here none) when no digit is found. -/
def parseIntStr (s : String) : Option Int :=
  let cs := s.data.dropWhile Char.isWhitespace
  match cs with
  | '-' :: rest =>
    let ds := leadingDigits rest
    if ds.isEmpty then none else some (-(digitsToNat ds : Int))
  | '+' :: rest =>
    let ds := leadingDigits rest
    if ds.isEmpty then none else some (digitsToNat ds : Int)
  | _ =>
    let ds := leadingDigits cs
    if ds.isEmpty then none else some (digitsToNat ds : Int)

/-- JavaScript parseInt(value, 10) on an arbitrary value: the argument is
first converted to a string. -/
def parseIntJS (v : JsVal) : Option Int :=
  parseIntStr (jsToString v)

/-- A pipe transforms one parameter value or fails with a failure kind and
message (spec section 3; PipeTransform in src/src/common/pipes/pipes.pipe.ts). -/
def Pipe : Type := JsVal → Except (Kind × String) JsVal

/-- The custom ParseIntPipe of src/src/common/pipes/pipes.pipe.ts lines
419-429: parseInt(value, 10); if the result is NaN it throws
BadRequestException with message "Validation failed" (kind
ValidationFailed of the spec taxonomy), else it returns the parsed
integer. -/
def parseIntPipe : Pipe := fun v =>
  match parseIntJS v with
  | none => .error (.ValidationFailed, "Validation failed")
  | some n => .ok (.num n)

/-- Modelled from the spec: DefaultValuePipe is framework code not present
under src/.  When the observed input is absent (null or undefined) it
supplies the declared default, otherwise it passes the value through
unchanged (spec section 4.3; usage in pipes.pipe.ts lines 479-490). -/
def defaultValuePipe (d : JsVal) : Pipe := fun v =>
  match v with
  | .undef => .ok d
  | .null => .ok d
  | v => .ok v

/-- Modelled from the spec: run the pipes of one parameter slot in
declared order, the output of one feeding the next; the first failing
pipe aborts the slot (spec sections 3 and 4.3). -/
def runPipes : List Pipe → JsVal → Except (Kind × String) JsVal
  | [], v => .ok v
  | p :: ps, v =>
    match p v with
    | .ok w => runPipes ps w
    | .error e => .error e

/-- Modelled from the spec: run the argument pipeline over every slot,
fail-fast on the first failing slot (spec section 4.3). -/
def runSlots : List (List Pipe × JsVal) → Except (Kind × String) (List JsVal)
  | [] => .ok []
  | (ps, v) :: rest =>
    match runPipes ps v with
    | .error e => .error e
    | .ok w =>
      match runSlots rest with
      | .error e => .error e
      | .ok ws => .ok (w :: ws)

/-- Declared metatype of a parameter slot: the five intrinsic wrapper
types that the source enumerates, or a composite class type identified by
its name (src/src/common/pipes/pipes.pipe.ts line 311). -/
inductive Metatype where
  | mString
  | mBoolean
  | mNumber
  | mArray
  | mObject
  | mClass (name : String)
  deriving DecidableEq, Repr

namespace ValidationPipe

/-- ValidationPipe.toValidate of src/src/common/pipes/pipes.pipe.ts lines
308-313: the metatype is validated exactly when it is not among
String, Boolean, Number, Array, Object. -/
def toValidate : Metatype → Bool
  | .mClass _ => true
  | _ => false

/-- ValidationPipe.transform of src/src/common/pipes/pipes.pipe.ts lines
292-306.  The class-validator call is abstracted by errorsOf, giving the
number of validation errors of a value against a metatype: when the
metatype is absent or not to be validated the value is returned unchanged;
when validation reports errors the pipe throws BadRequestException with
message "Validation failed"; otherwise the value is returned unchanged. -/
def transform (errorsOf : Metatype → JsVal → Nat) (value : JsVal)
    (metatype : Option Metatype) : Except (Kind × String) JsVal :=
  match metatype with
  | none => .ok value
  | some mt =>
    if !toValidate mt then .ok value
    else if errorsOf mt value > 0 then .error (.ValidationFailed, "Validation failed")
    else .ok value

end ValidationPipe

/-- One invocation of an interceptor, as the syntax of its interaction
with the proceed continuation: it either returns an outcome directly, or
calls proceed and continues as a function of the outcome proceed produced
(spec section 3: wrap(context, proceed) may run code before proceed,
decline to call it, or post-process its result). -/
inductive IProg (α : Type) where
  | ret (o : Outcome α)
  | proceed (k : Outcome α → IProg α)

/-- Modelled from the spec: run one interceptor invocation against an
inner continuation over a state sigma, returning the outcome, the final
state and the number of times the interceptor called proceed. -/
def runIcept {α σ : Type} : IProg α → (σ → Outcome α × σ) → σ → Outcome α × σ × Nat
  | .ret o, _, s => (o, s, 0)
  | .proceed k, inner, s =>
    let r := inner s
    let r2 := runIcept (k r.1) inner r.2
    (r2.1, r2.2.1, r2.2.2 + 1)

/-- Message of the defensive InvalidInterceptorUsage failure. -/
def invalidUsageMsg : String := "proceed called more than once"

/-- Modelled from the spec: the defensive check of section 4.4 around one
interceptor invocation; calling proceed more than once is a programming
error and the invocation fails with InvalidInterceptorUsage. -/
def runIceptChecked {α σ : Type} (p : IProg α) (inner : σ → Outcome α × σ)
    (s : σ) : Outcome α × σ :=
  let r := runIcept p inner s
  if r.2.2 ≤ 1 then (r.1, r.2.1)
  else (.failure .InvalidInterceptorUsage invalidUsageMsg, r.2.1)

/-- Modelled from the spec: right-fold composition of the interceptor
chain around the handler; the first declared interceptor wraps outermost
and each proceed continuation stands for the rest of the chain (spec
section 4.4; the source comments of
src/src/common/interceptors/interceptos.interceptor.ts lines 50-68
describe handle() invoking the remainder of the chain). -/
def runChain {α σ : Type} : List (IProg α) → (σ → Outcome α × σ) → σ → Outcome α × σ
  | [], handler, s => handler s
  | p :: ps, handler, s => runIceptChecked p (fun s2 => runChain ps handler s2) s

/-- A handler producing outcome h and counting its own invocations in the
threaded state. -/
def countingHandler {α : Type} (h : Outcome α) : Nat → Outcome α × Nat :=
  fun n => (h, n + 1)

/-- The CacheInterceptor of
src/src/common/interceptors/interceptos.interceptor.ts lines 228-242 as
an interceptor program: isCached is hardcoded true, so it returns the
hardcoded outcome (of([])) and never calls proceed. -/
def cacheInterceptor : IProg (List JsVal) := .ret (.success [])

/-- Errors travelling on a result stream: the rxjs TimeoutError raised by
the timeout operator, or an exception of a pipeline kind. -/
inductive StreamErr where
  | rxTimeoutErr
  | exc (k : Kind) (msg : String)
  deriving DecidableEq, Repr

/-- A stream event with the (discrete) time at which it is emitted and
either a value or an error. -/
structure TimedEvent (α : Type) where
  time : Nat
  ev : Except StreamErr α
  deriving Repr

/-- The rxjs timeout(T) operator on a single-event stream: if the source
has not emitted by the deadline it errors with TimeoutError at time T,
otherwise the source event passes through. -/
def rxTimeout {α : Type} (T : Nat) (src : TimedEvent α) : TimedEvent α :=
  if T < src.time then { time := T, ev := .error .rxTimeoutErr } else src

/-- The TimeoutInterceptor of
src/src/common/interceptors/interceptos.interceptor.ts lines 258-275 with
the deadline T as a parameter (the source hardcodes 5000):
next.handle().pipe(timeout(T), catchError(err =>
if err instanceof TimeoutError then throw RequestTimeoutException else
throw err)).  RequestTimeoutException carries kind Timeout with the
message "Request Timeout". -/
def timeoutIntercept {α : Type} (T : Nat) (inner : TimedEvent α) : TimedEvent α :=
  let t := rxTimeout T inner
  match t.ev with
  | .error .rxTimeoutErr => { time := t.time, ev := .error (.exc .Timeout "Request Timeout") }
  | _ => t

/-- The deadline the source hardcodes in TimeoutInterceptor. -/
def timeoutDeadline : Nat := 5000

/-- An exception filter: the set of failure kinds it catches (empty set
means catch-all, mirroring an empty Catch() parameter list,
src/src/common/exception-filters/exception-filters.filter.ts lines
312-314) and the translation it applies to a caught failure. -/
structure ExcFilter where
  kinds : List Kind
  translate : Kind → String → Kind × String

/-- Whether a filter catches a failure of kind k: its declared set is
empty (catch-all) or contains k. -/
def matchesKind (f : ExcFilter) (k : Kind) : Bool :=
  f.kinds.isEmpty || f.kinds.contains k

/-- Modelled from the spec: select the first registered filter catching
kind k, in declared order (spec section 4.5). -/
def selectFilter (fs : List ExcFilter) (k : Kind) : Option ExcFilter :=
  fs.find? (fun f => matchesKind f k)

/-- Whether a failure kind corresponds to an HttpException recognized by
the built-in exception layer
(src/src/common/exception-filters/exception-filters.filter.ts lines
30-33 and 148-172): the HTTP kinds are recognized, while HandlerError
(an arbitrary non-HTTP error from the handler) and the internal
InvalidInterceptorUsage defect are not. -/
def isHttpKind : Kind → Bool
  | .HandlerError => false
  | .InvalidInterceptorUsage => false
  | _ => true

/-- The default mapping of the built-in exception layer
(src/src/common/exception-filters/exception-filters.filter.ts lines
30-38): a recognized HttpException keeps its kind and message, an
unrecognized exception becomes the generic 500 body of httpResponse with
no internal detail. -/
def defaultTranslate (k : Kind) (m : String) : Kind × String :=
  if isHttpKind k then (k, m)
  else (.InternalError, httpResponse.message)

/-- Modelled from the spec: the error translator; the first matching
registered filter translates the failure, and with no matching filter the
built-in default mapping applies (spec section 4.5). -/
def translateFailure (fs : List ExcFilter) (k : Kind) (m : String) : Kind × String :=
  match selectFilter fs k with
  | some f => f.translate k m
  | none => defaultTranslate k m

/-- Modelled from the spec: the orchestrator before error translation;
guard chain, then argument pipeline, then the interceptor chain wrapping
the handler; the second component counts handler invocations (spec
section 4.6). -/
def rawPipeline {α : Type} (gs : List GuardResult) (slots : List (List Pipe × JsVal))
    (icepts : List (IProg α)) (handler : List JsVal → Outcome α) : Outcome α × Nat :=
  match runGuards gs with
  | some (k, m) => (.failure k m, 0)
  | none =>
    match runSlots slots with
    | .error (k, m) => (.failure k m, 0)
    | .ok args => runChain icepts (fun n => (handler args, n + 1)) 0

/-- Modelled from the spec: the full pipeline; any failure of the raw
pipeline is routed through the error translator with the registered
filters, a success passes through (spec sections 4.5 and 4.6). -/
def runPipeline {α : Type} (gs : List GuardResult) (slots : List (List Pipe × JsVal))
    (icepts : List (IProg α)) (fs : List ExcFilter)
    (handler : List JsVal → Outcome α) : Outcome α × Nat :=
  let r := rawPipeline gs slots icepts handler
  match r.1 with
  | .success v => (.success v, r.2)
  | .failure k m =>
    let t := translateFailure fs k m
    (.failure t.1 t.2, r.2)

/-- Errors of the metadata store contract (spec section 4.1). -/
inductive StoreErr where
  | DuplicateRoute
  | RouteNotFound
  deriving DecidableEq, Repr

/-- Modelled from the spec: the metadata store, route descriptors keyed by
route identifier in registration order (spec sections 3 and 4.1). -/
structure MetaStore (D : Type) where
  entries : List (String × D)

/-- Modelled from the spec: register(routeId, descriptor) fails with
DuplicateRoute when the routeId is already present, otherwise appends the
registration (spec section 4.1). -/
def registerRoute {D : Type} (rid : String) (d : D) (s : MetaStore D) :
    Except StoreErr (MetaStore D) :=
  if s.entries.any (fun e => e.1 = rid) then .error .DuplicateRoute
  else .ok ⟨s.entries ++ [(rid, d)]⟩

/-- Modelled from the spec: lookup(routeId) returns the descriptor of the
first registration under the routeId or fails with RouteNotFound (spec
section 4.1). -/
def lookupRoute {D : Type} (rid : String) (s : MetaStore D) : Except StoreErr D :=
  match s.entries.find? (fun e => e.1 = rid) with
  | some e => .ok e.2
  | none => .error .RouteNotFound

/-- JavaScript runtime errors observable in the guard code. -/
inductive JsErr where
  | typeError
  deriving DecidableEq, Repr

/-- The user attached to a request, as RolesGuard2 reads it. -/
structure ReqUser where
  role : String
  deriving DecidableEq, Repr

/-- RolesGuard2.matchRoles of src/src/common/guards/guards.guard.ts lines
217-219: roles.includes(userRole). -/
def matchRoles (roles : List String) (userRole : String) : Bool :=
  roles.contains userRole

/-- RolesGuard2.canActivate of src/src/common/guards/guards.guard.ts lines
205-215: roles is the reflector lookup for key "roles" on the handler
(none when no metadata is attached); if roles is absent the guard returns
true at once; otherwise it reads request.user (reading .role of an absent
user is a TypeError) and returns matchRoles(roles, user.role). -/
def rolesGuard2CanActivate (roles : Option (List String))
    (user : Option ReqUser) : Except JsErr Bool :=
  match roles with
  | none => .ok true
  | some rs =>
    match user with
    | none => .error .typeError
    | some u => .ok (matchRoles rs u.role)

/-- A two-interceptor chain: the outer interceptor calls proceed and then
replaces the result (response shaping, like TransformInterceptor of
src/src/common/interceptors/interceptos.interceptor.ts lines 170-178);
the inner interceptor short-circuits without calling proceed (like
CacheInterceptor, lines 228-242). -/
def cxChain : List (IProg Nat) :=
  [.proceed (fun _ => .ret (.success 99)), .ret (.success 0)]

/-- An interceptor program that calls proceed twice and returns the first
result. -/
def doubleProceed : IProg Nat :=
  .proceed (fun o => .proceed (fun _ => .ret o))

/-- A constant inner continuation leaving the state unchanged. -/
def constInner : Nat → Outcome Nat × Nat := fun s => (.success 1, s)

/-- A filter catching only Unauthorized failures and remapping them. -/
def authOnlyFilter : ExcFilter :=
  { kinds := [.Unauthorized], translate := fun _ _ => (.BadGateway, "bad gateway") }

/-- The pipe chain of the C3 scenario: default(5) then parseInt, in the
order pipes.pipe.ts lines 479-490 bind DefaultValuePipe before a Parse
pipe. -/
def defaultThenParseInt : List Pipe :=
  [defaultValuePipe (.num 5), parseIntPipe]

end Pipeline

namespace Pipeline

/-- C3: for the slot pipe chain [default(5), parseInt], input undefined
yields the integer 5, input "7" yields the integer 7, and input "x"
yields a ValidationFailed outcome while the handler is invoked zero
times. -/
theorem c3_default_then_parseint :
    runPipes defaultThenParseInt .undef = .ok (.num 5) ∧
    runPipes defaultThenParseInt (.str "7") = .ok (.num 7) ∧
    runPipes defaultThenParseInt (.str "x") =
      .error (.ValidationFailed, "Validation failed") ∧
    (runPipeline [] [(defaultThenParseInt, .str "x")] [] []
        (fun args => .success args)).1 = .failure .ValidationFailed "Validation failed" ∧
    (runPipeline [] [(defaultThenParseInt, .str "x")] [] []
        (fun args => .success args)).2 = 0 :=
  ⟨rfl, rfl, rfl, rfl, rfl⟩

/-- C10: when no roles metadata is attached to the route, RolesGuard2
returns true for every request, whatever the user of the request is (even
an absent one, which the roles branch would fail on). -/
theorem c10_no_roles_metadata_allows (user : Option ReqUser) :
    rolesGuard2CanActivate none user = .ok true :=
  rfl

/-- C5: the timeout interceptor with deadline T wrapping an inner event
that resolves strictly after T yields the Timeout failure at time T (so
not the eventual inner event), while an inner error other than the
timeout, resolving within the deadline, is propagated unchanged. -/
theorem c5_timeout_interceptor {α : Type} (T : Nat) (e : TimedEvent α) :
    (T < e.time →
      timeoutIntercept T e =
        { time := T, ev := .error (.exc .Timeout "Request Timeout") }) ∧
    (T < e.time → timeoutIntercept T e ≠ e) ∧
    (∀ k m, e.time ≤ T → e.ev = .error (.exc k m) → timeoutIntercept T e = e) := by
  refine ⟨?_, ?_, ?_⟩
  · intro h
    simp [timeoutIntercept, rxTimeout, if_pos h]
  · intro h he
    have ht : (timeoutIntercept T e).time = e.time := by rw [he]
    simp [timeoutIntercept, rxTimeout, if_pos h] at ht
    omega
  · intro k m h he
    have hn : ¬ T < e.time := by omega
    simp [timeoutIntercept, rxTimeout, if_neg hn, he]

/-- C5 witness: with deadline 3 and an inner value resolving at time 10,
the interceptor yields the Timeout failure and not the inner event. -/
theorem c5_timeout_interceptor_witness :
    timeoutIntercept 3 ⟨10, Except.ok (42 : Nat)⟩ =
      ⟨3, .error (.exc .Timeout "Request Timeout")⟩ ∧
    timeoutIntercept 3 ⟨10, Except.ok (42 : Nat)⟩ ≠ ⟨10, Except.ok (42 : Nat)⟩ :=
  ⟨(c5_timeout_interceptor 3 ⟨10, Except.ok 42⟩).1 (by decide),
   (c5_timeout_interceptor 3 ⟨10, Except.ok 42⟩).2.1 (by decide)⟩

/-- C6: the validation pipe returns the value unchanged whenever the
declared metatype is absent or one of the intrinsic wrapper types
(String, Boolean, Number, Array, Object); any other result (validation
rejecting the value) can only arise for a composite class metatype whose
validator reports errors. -/
theorem c6_validation_bypass (errorsOf : Metatype → JsVal → Nat) (v : JsVal)
    (mt : Option Metatype) :
    ((mt = none ∨ ∃ m, mt = some m ∧ ValidationPipe.toValidate m = false) →
      ValidationPipe.transform errorsOf v mt = .ok v) ∧
    (ValidationPipe.transform errorsOf v mt ≠ .ok v →
      ∃ n, mt = some (.mClass n) ∧ 0 < errorsOf (.mClass n) v ∧
        ValidationPipe.transform errorsOf v mt =
          .error (.ValidationFailed, "Validation failed")) := by
  constructor
  · rintro (rfl | ⟨m, rfl, hm⟩)
    · rfl
    · simp [ValidationPipe.transform, hm]
  · intro hne
    match mt with
    | none => exact absurd rfl hne
    | some (.mString) => exact absurd rfl hne
    | some (.mBoolean) => exact absurd rfl hne
    | some (.mNumber) => exact absurd rfl hne
    | some (.mArray) => exact absurd rfl hne
    | some (.mObject) => exact absurd rfl hne
    | some (.mClass n) =>
      refine ⟨n, rfl, ?_, ?_⟩ <;>
        · simp only [ValidationPipe.transform, ValidationPipe.toValidate,
            Bool.not_true, gt_iff_lt] at hne ⊢
          by_cases hp : 0 < errorsOf (.mClass n) v <;> simp [hp] at hne ⊢

/-- C6 witness: a slot declared String with a validator reporting one
error is still bypassed and returned unchanged. -/
theorem c6_validation_bypass_witness :
    ValidationPipe.transform (fun _ _ => 1) (.str "a") (some .mString) =
      .ok (.str "a") :=
  (c6_validation_bypass (fun _ _ => 1) (.str "a") (some .mString)).1
    (Or.inr ⟨.mString, rfl, rfl⟩)

/-- C4: guard evaluation is deterministic and sequential in declaration
order: every guard evaluated before the last one returned true (the chain
walks the list front to back), and a false result at position i stops the
chain, so no guard at a position beyond i is evaluated. -/
theorem c4_guard_short_circuit (gs : List GuardResult) :
    (∀ j, j + 1 < guardsEvaluated gs → gs.get? j = some .gtrue) ∧
    (∀ i, gs.get? i = some .gfalse → guardsEvaluated gs ≤ i + 1) := by
  constructor
  · intro j hj
    induction gs generalizing j with
    | nil => simp [guardsEvaluated] at hj
    | cons g gs ih =>
      match g, j with
      | .gtrue, 0 => rfl
      | .gtrue, j + 1 =>
        simp only [guardsEvaluated] at hj
        exact ih j (by omega)
      | .gfalse, _ => simp [guardsEvaluated] at hj
      | .gerror k m, _ => simp [guardsEvaluated] at hj
  · intro i hi
    induction gs generalizing i with
    | nil => simp at hi
    | cons g gs ih =>
      match g, i with
      | .gtrue, 0 => simp at hi
      | .gtrue, i + 1 =>
        simp only [List.get?_cons_succ] at hi
        have := ih i hi
        simp only [guardsEvaluated]
        omega
      | .gfalse, i =>
        simp only [guardsEvaluated]
        omega
      | .gerror k m, i =>
        simp only [guardsEvaluated]
        omega

/-- C4 witness: in the chain [true, false, true] the guard at position 0
was evaluated to true and at most the first two guards are evaluated, so
the guard at position 2 never runs. -/
theorem c4_guard_short_circuit_witness :
    [GuardResult.gtrue, .gfalse, .gtrue].get? 0 = some .gtrue ∧
    guardsEvaluated [GuardResult.gtrue, .gfalse, .gtrue] ≤ 2 :=
  ⟨(c4_guard_short_circuit [.gtrue, .gfalse, .gtrue]).1 0 (by decide),
   (c4_guard_short_circuit [.gtrue, .gfalse, .gtrue]).2 1 rfl⟩

/-- C9: registering a second descriptor under a routeId that a successful
registration already placed in the store fails with DuplicateRoute, and
the store still answers lookups with the first descriptor. -/
theorem c9_duplicate_route {D : Type} (s0 s1 : MetaStore D) (rid : String)
    (d1 d2 : D) (h : registerRoute rid d1 s0 = .ok s1) :
    registerRoute rid d2 s1 = .error .DuplicateRoute ∧
    lookupRoute rid s1 = .ok d1 := by
  unfold registerRoute at h
  by_cases hc : s0.entries.any (fun e => e.1 = rid)
  · rw [if_pos hc] at h
    exact absurd h (by simp)
  · rw [if_neg hc] at h
    have hs1 : s1.entries = s0.entries ++ [(rid, d1)] := by
      cases h
      rfl
    have hnone : s0.entries.find? (fun e => decide (e.1 = rid)) = none := by
      rw [List.find?_eq_none]
      intro x hx
      simp only [Bool.not_eq_true, decide_eq_false_iff_not]
      intro hxr
      exact hc (List.any_eq_true.mpr ⟨x, hx, by simp [hxr]⟩)
    constructor
    · unfold registerRoute
      rw [if_pos]
      rw [hs1, List.any_append]
      simp
    · unfold lookupRoute
      rw [hs1, List.find?_append, hnone]
      simp

/-- C9 witness: after registering descriptor 1 under routeId "a" in the
empty store, registering descriptor 2 under "a" fails with DuplicateRoute
and lookup still yields descriptor 1. -/
theorem c9_duplicate_route_witness :
    registerRoute "a" (2 : Nat) ⟨[("a", 1)]⟩ = .error .DuplicateRoute ∧
    lookupRoute "a" (⟨[("a", 1)]⟩ : MetaStore Nat) = .ok 1 :=
  c9_duplicate_route ⟨[]⟩ ⟨[("a", 1)]⟩ "a" 1 2 rfl

/-- When a false-returning guard is in the chain, the chain rejects:
either the first non-true guard returned false, giving the normalized
Forbidden failure with the generic message, or an earlier guard threw
and its error propagates. -/
theorem runGuards_of_gfalse_mem (gs : List GuardResult)
    (h : GuardResult.gfalse ∈ gs) :
    runGuards gs = some (.Forbidden, errorResponse.message) ∨
    ∃ k m, GuardResult.gerror k m ∈ gs ∧ runGuards gs = some (k, m) := by
  induction gs with
  | nil => simp at h
  | cons g gs ih =>
    match g with
    | .gtrue =>
      have hg : GuardResult.gfalse ∈ gs := by
        rcases List.mem_cons.mp h with h1 | h1
        · exact absurd h1 (by simp)
        · exact h1
      rcases ih hg with h2 | ⟨k, m, hm, h2⟩
      · exact Or.inl h2
      · exact Or.inr ⟨k, m, List.mem_cons_of_mem _ hm, h2⟩
    | .gfalse => exact Or.inl rfl
    | .gerror k m => exact Or.inr ⟨k, m, List.mem_cons_self _ _, rfl⟩

/-- C1: when some guard of the chain evaluates to false and every error a
guard may throw is a recognized (specific) HTTP kind, the handler is
invoked zero times and the final outcome is the Forbidden failure with
the generic errorResponse message, unless an earlier guard threw a
specific error, whose kind and message become the outcome instead. -/
theorem c1_guard_false_forbidden {α : Type} (gs : List GuardResult)
    (slots : List (List Pipe × JsVal)) (icepts : List (IProg α))
    (handler : List JsVal → Outcome α)
    (hf : GuardResult.gfalse ∈ gs)
    (hspec : ∀ k m, GuardResult.gerror k m ∈ gs → isHttpKind k = true) :
    (runPipeline gs slots icepts [] handler).2 = 0 ∧
    ((runPipeline gs slots icepts [] handler).1 =
        .failure .Forbidden errorResponse.message ∨
      ∃ k m, GuardResult.gerror k m ∈ gs ∧
        (runPipeline gs slots icepts [] handler).1 = .failure k m) := by
  rcases runGuards_of_gfalse_mem gs hf with hg | ⟨k, m, hm, hg⟩
  · constructor
    · simp [runPipeline, rawPipeline, hg]
    · exact Or.inl (by
        simp [runPipeline, rawPipeline, hg, translateFailure, selectFilter,
          defaultTranslate, isHttpKind])
  · constructor
    · simp [runPipeline, rawPipeline, hg]
    · refine Or.inr ⟨k, m, hm, ?_⟩
      simp [runPipeline, rawPipeline, hg, translateFailure, selectFilter,
        defaultTranslate, hspec k m hm]

/-- C1 witness: with guards [true, false], no slots, no interceptors and
no filters, the handler runs zero times and the outcome is the Forbidden
failure with the generic message. -/
theorem c1_guard_false_forbidden_witness :
    (runPipeline [GuardResult.gtrue, .gfalse] [] [] []
        (fun _ => Outcome.success (0 : Nat))).2 = 0 ∧
    ((runPipeline [GuardResult.gtrue, .gfalse] [] [] []
        (fun _ => Outcome.success (0 : Nat))).1 =
        .failure .Forbidden errorResponse.message ∨
      ∃ k m, GuardResult.gerror k m ∈ [GuardResult.gtrue, .gfalse] ∧
        (runPipeline [GuardResult.gtrue, .gfalse] [] [] []
            (fun _ => Outcome.success (0 : Nat))).1 = .failure k m) :=
  c1_guard_false_forbidden [.gtrue, .gfalse] [] [] (fun _ => .success 0)
    (by decide)
    (by
      intro k m hm
      simp at hm)

/-- Running one interceptor against an inner continuation that leaves the
state unchanged leaves the state unchanged. -/
theorem runIcept_state_fixed {α σ : Type} (p : IProg α)
    (inner : σ → Outcome α × σ) (hin : ∀ s, (inner s).2 = s) (s : σ) :
    (runIcept p inner s).2.1 = s := by
  induction p generalizing s with
  | ret o => rfl
  | proceed k ih =>
    simp only [runIcept]
    rw [ih, hin]

/-- The defensive wrapper returns the same final state as the raw run. -/
theorem runIceptChecked_state {α σ : Type} (p : IProg α)
    (inner : σ → Outcome α × σ) (s : σ) :
    (runIceptChecked p inner s).2 = (runIcept p inner s).2.1 := by
  by_cases h : (runIcept p inner s).2.2 ≤ 1 <;> simp [runIceptChecked, h]

/-- A chain containing an interceptor that returns without calling
proceed never reaches the handler: the threaded state is unchanged. -/
theorem runChain_state_of_ret {α σ : Type} (ps : List (IProg α)) (i : Nat)
    (o : Outcome α) (handler : σ → Outcome α × σ)
    (hi : ps.get? i = some (.ret o)) (s : σ) :
    (runChain ps handler s).2 = s := by
  induction ps generalizing i s with
  | nil => simp at hi
  | cons p rest ih =>
    match i with
    | 0 =>
      have hp : p = .ret o := by
        simpa using hi
      subst hp
      simp [runChain, runIceptChecked, runIcept]
    | i + 1 =>
      simp only [List.get?_cons_succ] at hi
      simp only [runChain]
      rw [runIceptChecked_state]
      exact runIcept_state_fixed p _ (fun s2 => ih i hi s2) s

/-- C2 counterexample to the claim as stated: in the chain cxChain the
inner interceptor (position 1) returns Success 0 without ever calling
proceed, the handler indeed runs zero times, yet the final outcome is the
outer interceptor reshaped value Success 99, not Success 0. -/
theorem c2_counterexample :
    cxChain.get? 1 = some (.ret (.success 0)) ∧
    (runChain cxChain (countingHandler (.success 7)) 0).2 = 0 ∧
    (runChain cxChain (countingHandler (.success 7)) 0).1 ≠ .success 0 := by
  refine ⟨rfl, rfl, ?_⟩
  intro h
  simp [cxChain, runChain, runIceptChecked, runIcept, countingHandler] at h

/-- C2 (amended): if some interceptor of the chain returns an outcome
without ever calling proceed, the handler is invoked zero times; and when
that interceptor is the outermost one, the final outcome equals the value
it returned (an enclosing interceptor may otherwise reshape it). -/
theorem c2_short_circuit {α : Type} (ps : List (IProg α)) (i : Nat)
    (o h : Outcome α) (hi : ps.get? i = some (.ret o)) :
    (runChain ps (countingHandler h) 0).2 = 0 ∧
    (i = 0 → (runChain ps (countingHandler h) 0).1 = o) := by
  constructor
  · exact runChain_state_of_ret ps i o (countingHandler h) hi 0
  · rintro rfl
    match ps, hi with
    | p :: rest, hi =>
      have hp : p = .ret o := by
        simpa using hi
      subst hp
      simp [runChain, runIceptChecked, runIcept]

/-- C2 witness: a single cache-style interceptor returning Success 5
without proceeding yields zero handler invocations and final outcome
Success 5. -/
theorem c2_short_circuit_witness :
    (runChain [IProg.ret (Outcome.success (5 : Nat))]
        (countingHandler (.success 7)) 0).2 = 0 ∧
    (runChain [IProg.ret (Outcome.success (5 : Nat))]
        (countingHandler (.success 7)) 0).1 = .success 5 :=
  ⟨(c2_short_circuit [.ret (.success 5)] 0 (.success 5) (.success 7) rfl).1,
   (c2_short_circuit [.ret (.success 5)] 0 (.success 5) (.success 7) rfl).2 rfl⟩

/-- C8: the defensive check around one interceptor invocation: if the
interceptor called proceed two or more times the invocation fails with
InvalidInterceptorUsage; if it called proceed at most once the invocation
returns the interceptor outcome unchanged, and in particular (when that
outcome is not itself such a failure) never produces an
InvalidInterceptorUsage failure. -/
theorem c8_proceed_at_most_once {α σ : Type} (p : IProg α)
    (inner : σ → Outcome α × σ) (s : σ) :
    (2 ≤ (runIcept p inner s).2.2 →
      (runIceptChecked p inner s).1 =
        .failure .InvalidInterceptorUsage invalidUsageMsg) ∧
    ((runIcept p inner s).2.2 ≤ 1 →
      (runIceptChecked p inner s).1 = (runIcept p inner s).1) ∧
    ((runIcept p inner s).2.2 ≤ 1 →
      (∀ m, (runIcept p inner s).1 ≠ .failure .InvalidInterceptorUsage m) →
      ∀ m, (runIceptChecked p inner s).1 ≠
        .failure .InvalidInterceptorUsage m) := by
  refine ⟨?_, ?_, ?_⟩
  · intro h2
    unfold runIceptChecked
    rw [if_neg (by omega)]
  · intro h1
    unfold runIceptChecked
    rw [if_pos h1]
  · intro h1 hno m
    unfold runIceptChecked
    rw [if_pos h1]
    exact hno m

/-- C8 witness: the interceptor calling proceed twice fails with
InvalidInterceptorUsage, while one that never calls proceed keeps its own
outcome. -/
theorem c8_proceed_at_most_once_witness :
    (runIceptChecked doubleProceed constInner 0).1 =
      .failure .InvalidInterceptorUsage invalidUsageMsg ∧
    (runIceptChecked (IProg.ret (Outcome.success (3 : Nat))) constInner 0).1 =
      .success 3 :=
  ⟨(c8_proceed_at_most_once doubleProceed constInner 0).1 (by decide),
   (c8_proceed_at_most_once (.ret (.success 3)) constInner 0).2.1 (by decide)⟩

/-- C7 counterexample to the claim as stated: a Forbidden failure reaching
the translator with no registered filter (so no filter matches) keeps its
Forbidden kind and message, because the built-in layer recognizes it as an
HttpException; it does not become the generic InternalError outcome. -/
theorem c7_counterexample :
    selectFilter [] .Forbidden = none ∧
    translateFailure [] .Forbidden "Forbidden resource" =
      (.Forbidden, "Forbidden resource") ∧
    translateFailure [] .Forbidden "Forbidden resource" ≠
      (.InternalError, httpResponse.message) :=
  ⟨rfl, rfl, by decide⟩

/-- C7 (amended): the first registered filter whose matched-kind set
contains the failure kind, or whose set is empty (catch-all), is selected
in declared order; if no filter matches, the built-in default mapping
applies: failures of unrecognized kinds become the generic InternalError
outcome with only the generic httpResponse message, while recognized HTTP
kinds keep their kind and message. -/
theorem c7_translator_selection (fs : List ExcFilter) (i : Nat)
    (f : ExcFilter) (k : Kind) (m : String) :
    (fs.get? i = some f → matchesKind f k = true →
      (∀ j g, j < i → fs.get? j = some g → matchesKind g k = false) →
      translateFailure fs k m = f.translate k m) ∧
    ((∀ g ∈ fs, matchesKind g k = false) →
      translateFailure fs k m = defaultTranslate k m) ∧
    (isHttpKind k = false →
      defaultTranslate k m = (.InternalError, httpResponse.message)) ∧
    (isHttpKind k = true → defaultTranslate k m = (k, m)) := by
  refine ⟨?_, ?_, ?_, ?_⟩
  · intro hi hf hbefore
    have hsel : selectFilter fs k = some f := by
      unfold selectFilter
      induction fs generalizing i with
      | nil => simp at hi
      | cons g rest ih =>
        match i with
        | 0 =>
          have hg : g = f := by
            simpa using hi
          subst hg
          exact List.find?_cons_of_pos _ hf
        | i + 1 =>
          have hg0 : matchesKind g k = false := hbefore 0 g (by omega) rfl
          rw [List.find?_cons_of_neg _ (by simp [hg0])]
          exact ih i (by simpa using hi)
            (fun j g2 hj hjg => hbefore (j + 1) g2 (by omega) (by simpa using hjg))
    simp [translateFailure, hsel]
  · intro hall
    have hsel : selectFilter fs k = none := by
      unfold selectFilter
      rw [List.find?_eq_none]
      intro g hg
      simp [hall g hg]
    simp [translateFailure, hsel]
  · intro hk
    simp [defaultTranslate, hk]
  · intro hk
    simp [defaultTranslate, hk]

/-- C7 witness: with one registered filter catching only Unauthorized, a
Forbidden failure matches no filter and the default mapping keeps it as
Forbidden with its message, while a HandlerError failure would default to
the generic InternalError body. -/
theorem c7_translator_selection_witness :
    translateFailure [authOnlyFilter] .Forbidden "msg" = (.Forbidden, "msg") ∧
    translateFailure [authOnlyFilter] .HandlerError "boom" =
      (.InternalError, httpResponse.message) := by
  constructor
  · have h2 := (c7_translator_selection [authOnlyFilter] 0 authOnlyFilter
      .Forbidden "msg").2.1 (by
        intro g hg
        simp only [List.mem_singleton] at hg
        subst hg
        rfl)
    have h4 := (c7_translator_selection [authOnlyFilter] 0 authOnlyFilter
      .Forbidden "msg").2.2.2 rfl
    rw [h2, h4]
  · have h2 := (c7_translator_selection [authOnlyFilter] 0 authOnlyFilter
      .HandlerError "boom").2.1 (by
        intro g hg
        simp only [List.mem_singleton] at hg
        subst hg
        rfl)
    have h3 := (c7_translator_selection [authOnlyFilter] 0 authOnlyFilter
      .HandlerError "boom").2.2.1 rfl
    rw [h2, h3]

end Pipeline
